import Mathlib

/-!
# Verification of the v3-CVision candidate-matching core

A shallow embedding, over exact rationals, of the scoring and orchestration
logic of `backend/app/services/candidate_matcher.py`, together with models of
the analysis fan-out of `backend/app/services/lastenheft_analyzer.py` and the
event stream of `backend/app/services/chat_service.py`.

Python floats are modelled as exact rationals (`ℚ`); `round(x, 4)` is
modelled as exact round-half-to-even at 4 decimal places.  The external
collaborators (embedding service, hybrid search, LLM client) are modelled by
passing their outcome as an explicit argument: `matchCandidates` takes the
list of raw search results and the outcome of the explanation LLM call,
`analyze` takes the outcome of each of its three LLM sub-calls, and
`stream_chat` takes the outcome of each pipeline stage.
-/

/-- Python `str.lower()` applied characterwise (the code only lowercases
skill/tool names for case-insensitive comparison). -/
def lowerStr (s : String) : String := String.mk (s.data.map Char.toLower)

/-- Python `round(x, 4)` on exact values: round to the nearest integer,
halves to the even integer (banker's rounding, as Python's `round`). -/
def roundHalfEven (x : ℚ) : ℤ :=
  if x - ⌊x⌋ < 1/2 then ⌊x⌋
  else if 1/2 < x - ⌊x⌋ then ⌊x⌋ + 1
  else if ⌊x⌋ % 2 = 0 then ⌊x⌋ else ⌊x⌋ + 1

/-- `round(x, 4)`: round to 4 decimal places. -/
def round4 (x : ℚ) : ℚ := (roundHalfEven (x * 10000) : ℚ) / 10000

/-- Module constant `WEIGHT_SKILL_MATCH = 0.40` of `candidate_matcher.py`. -/
def WEIGHT_SKILL_MATCH : ℚ := 2/5

/-- Module constant `WEIGHT_EXPERIENCE = 0.25`. -/
def WEIGHT_EXPERIENCE : ℚ := 1/4

/-- Module constant `WEIGHT_SEMANTIC = 0.20`. -/
def WEIGHT_SEMANTIC : ℚ := 1/5

/-- Module constant `WEIGHT_AVAILABILITY = 0.15`. -/
def WEIGHT_AVAILABILITY : ℚ := 3/20

/-- Module constant `DEFAULT_AVAILABILITY = 0.8`. -/
def DEFAULT_AVAILABILITY : ℚ := 4/5

/-- Module constant `MAX_CANDIDATES = 10`. -/
def MAX_CANDIDATES : Nat := 10

/-- `app.models.lastenheft.ExtractedSkill`: `level` is `None` or one of
`junior`/`mid`/`senior`/`expert` (pydantic pattern). -/
structure ExtractedSkill where
  name : String
  category : String
  mandatory : Bool
  level : Option String
deriving DecidableEq

/-- One raw hybrid-search result record (`dict`), with the fields the matcher
reads.  A missing `score` or `years_of_experience` is read by the code as `0`
(`result.get(..., 0) or 0`), so it is modelled by the field being `0`. -/
structure SearchResult where
  employee_name : String
  employee_alias : String
  title : String
  location : String
  skills : List String
  tools : List String
  years_of_experience : ℚ
  score : ℚ
deriving DecidableEq

/-- `app.models.lastenheft.ScoreBreakdown`. -/
structure ScoreBreakdown where
  skill_match : ℚ
  experience : ℚ
  semantic_similarity : ℚ
  availability : ℚ
deriving DecidableEq

/-- `app.models.lastenheft.CandidateMatch`. -/
structure CandidateMatch where
  employee_name : String
  employee_alias : String
  title : String
  location : String
  skills : List String
  total_score : ℚ
  breakdown : ScoreBreakdown
  explanation : String
deriving DecidableEq

/-- `app.models.lastenheft.CandidateMatchResponse`. -/
structure CandidateMatchResponse where
  matchList : List CandidateMatch
  total_candidates_searched : Nat
  query_skills : List String
deriving DecidableEq

/-- The per-skill weight of the loop in `calculate_skill_match`:
`2.0 if skill.mandatory else 1.0`. -/
def skill_weight (s : ExtractedSkill) : ℚ := if s.mandatory then 2 else 1

/-- The case-insensitive employee set
`{s.lower() for s in employee_skills} | {t.lower() for t in employee_tools}`,
kept as a list (membership is what the code uses it for; it is empty exactly
when both input lists are empty). -/
def employee_set (employee_skills employee_tools : List String) : List String :=
  employee_skills.map lowerStr ++ employee_tools.map lowerStr

/-- `candidate_matcher.calculate_skill_match` (lines 46-69). -/
def calculate_skill_match (required_skills : List ExtractedSkill)
    (employee_skills employee_tools : List String) : ℚ :=
  if required_skills.isEmpty then 0
  else
    let eset := employee_set employee_skills employee_tools
    if eset.isEmpty then 0
    else
      let weighted_total := (required_skills.map skill_weight).sum
      let weighted_matched := (required_skills.map (fun s =>
        if eset.contains (lowerStr s.name) then skill_weight s else 0)).sum
      if weighted_total = 0 then 0 else weighted_matched / weighted_total

/-- The `level_ranges` table of `calculate_experience_score`, with
`dict.get(required_level, (2.0, 5.0))` as the fallback branch. -/
def level_ranges (required_level : String) : ℚ × ℚ :=
  if required_level = "junior" then (0, 2)
  else if required_level = "mid" then (2, 5)
  else if required_level = "senior" then (5, 10)
  else if required_level = "expert" then (8, 20)
  else (2, 5)

/-- `candidate_matcher.calculate_experience_score` (lines 72-90). -/
def calculate_experience_score (required_level : Option String) (years : ℚ) : ℚ :=
  match required_level with
  | none => 7/10
  | some lvl =>
    let r := level_ranges lvl
    let ideal_mid := (r.1 + r.2) / 2
    let distance := |years - ideal_mid|
    let spread := (r.2 - r.1) / 2 + 2
    min 1 (max 0 (1 - distance / spread))

/-- `candidate_matcher.normalize_search_score` (lines 93-97). -/
def normalize_search_score (score max_score : ℚ) : ℚ :=
  if max_score ≤ 0 then 0
  else max 0 (min 1 (score / max_score))

/-- Python truthiness of the optional `level` string,
as tested by `if s.mandatory and s.level`. -/
def levelTruthy : Option String → Bool
  | none => false
  | some s => s ≠ ""

/-- The `primary_level` expression of `_score_candidate` (lines 146-149):
`next((s.level for s in required_skills if s.mandatory and s.level),
next((s.level for s in required_skills if s.level), None))`. -/
def primary_level (required_skills : List ExtractedSkill) : Option String :=
  match required_skills.find? (fun s => s.mandatory && levelTruthy s.level) with
  | some s => s.level
  | none =>
    match required_skills.find? (fun s => levelTruthy s.level) with
    | some s => s.level
    | none => none

/-- The precedence rule as the spec words it: the first level carried by a
mandatory skill if any mandatory skill carries one, else the first level
carried by any skill, else `None` — ties broken by input list order. -/
def spec_primary_level (required_skills : List ExtractedSkill) : Option String :=
  match (required_skills.filter (fun s => s.mandatory && levelTruthy s.level)).head? with
  | some s => s.level
  | none =>
    match (required_skills.filter (fun s => levelTruthy s.level)).head? with
    | some s => s.level
    | none => none

/-- `CandidateMatcher._score_candidate` (lines 134-173): the rounded total and
the `ScoreBreakdown` of rounded components. -/
def score_candidate (result : SearchResult) (required_skills : List ExtractedSkill)
    (max_search_score : ℚ) : ℚ × ScoreBreakdown :=
  let skill_score := calculate_skill_match required_skills result.skills result.tools
  let experience_score :=
    calculate_experience_score (primary_level required_skills) result.years_of_experience
  let semantic_score := normalize_search_score result.score max_search_score
  let availability_score := DEFAULT_AVAILABILITY
  let total := WEIGHT_SKILL_MATCH * skill_score + WEIGHT_EXPERIENCE * experience_score
    + WEIGHT_SEMANTIC * semantic_score + WEIGHT_AVAILABILITY * availability_score
  (round4 total,
    { skill_match := round4 skill_score
      experience := round4 experience_score
      semantic_similarity := round4 semantic_score
      availability := round4 availability_score })

/-- `max(r.get("score", 0) for r in search_results) or 1.0` (line 253): the
batch maximum of the raw scores, replaced by `1.0` when falsy (i.e. zero);
only evaluated on a non-empty batch. -/
def max_search_score (search_results : List SearchResult) : ℚ :=
  let m := ((search_results.map (fun r => r.score)).max?).getD 0
  if m = 0 then 1 else m

/-- The outcome of the `_generate_explanations` LLM call (lines 175-220):
an exception anywhere in the call (transport, malformed JSON, missing key),
a falsy `content`, or a parsed `explanations` list of
`(employee_alias, explanation)` pairs. -/
inductive ExplanationOutcome where
  | failure
  | emptyContent
  | parsed (items : List (String × String))
deriving DecidableEq

/-- `_generate_explanations`: any exception and empty content both degrade to
the empty mapping; otherwise the parsed pairs form the mapping. -/
def generate_explanations : ExplanationOutcome → List (String × String)
  | .failure => []
  | .emptyContent => []
  | .parsed items => items

/-- Python `dict(...)` lookup `explanations.get(alias, "")`; a repeated alias
keeps the last pair, as a dict comprehension does. -/
def explanationsGet (explanations : List (String × String)) (a : String) : String :=
  match explanations.reverse.find? (fun p => p.1 == a) with
  | some p => p.2
  | none => ""

/-- A scored candidate tuple `(total, breakdown, result)` as built by
`match()` (lines 255-258). -/
abbrev Scored := ℚ × ScoreBreakdown × SearchResult

/-- The comparator realising `scored.sort(key=lambda x: x[0], reverse=True)`:
`a` may stay before `b` iff `b`'s total does not exceed `a`'s.  Python's
`list.sort` is stable; `List.insertionSort` with this comparator is the same
(unique) stable descending sort. -/
def scoredRel (a b : Scored) : Prop := b.1 ≤ a.1

instance : DecidableRel scoredRel := fun a b => inferInstanceAs (Decidable (b.1 ≤ a.1))

instance : IsTotal Scored scoredRel := ⟨fun a b => le_total b.1 a.1⟩

instance : IsTrans Scored scoredRel := ⟨fun _ _ _ h1 h2 => le_trans h2 h1⟩

/-- The scored list of `match()` before sorting, in search-result order. -/
def scoredList (skills : List ExtractedSkill) (search_results : List SearchResult) :
    List Scored :=
  search_results.map (fun r =>
    ((score_candidate r skills (max_search_score search_results)).1,
     (score_candidate r skills (max_search_score search_results)).2, r))

/-- Building one `CandidateMatch` from a scored tuple (lines 266-280). -/
def mkCandidateMatch (explanations : List (String × String)) (item : Scored) :
    CandidateMatch :=
  { employee_name := item.2.2.employee_name
    employee_alias := item.2.2.employee_alias
    title := item.2.2.title
    location := item.2.2.location
    skills := item.2.2.skills
    total_score := item.1
    breakdown := item.2.1
    explanation := explanationsGet explanations item.2.2.employee_alias }

/-- `CandidateMatcher.match` (lines 246-286) after a successful search: the
post-search pipeline applied to the search results and the outcome of the
explanation call.  (The embedding and search stages themselves raise on
failure before this point; the empty-result short-circuit of lines 246-251 is
included.) -/
def matchCandidates (skills : List ExtractedSkill) (search_results : List SearchResult)
    (outcome : ExplanationOutcome) : CandidateMatchResponse :=
  if search_results.isEmpty then
    { matchList := []
      total_candidates_searched := 0
      query_skills := skills.map (fun s => s.name) }
  else
    { matchList := ((List.insertionSort scoredRel (scoredList skills search_results)).take
        MAX_CANDIDATES).map (mkCandidateMatch (generate_explanations outcome))
      total_candidates_searched := search_results.length
      query_skills := skills.map (fun s => s.name) }

/-- Erase the explanation of a `CandidateMatch` (for stating that the ranking
is independent of the explanation stage). -/
def dropExplanation (c : CandidateMatch) : CandidateMatch :=
  { c with explanation := "" }

/-- `app.models.lastenheft.QualityScore` (scores 0-100, enforced by pydantic). -/
structure QualityScore where
  completeness : Nat
  clarity : Nat
  specificity : Nat
  feasibility : Nat
  overall : Nat
  summary : String
deriving DecidableEq

/-- `app.models.lastenheft.OpenQuestion`. -/
structure OpenQuestion where
  question : String
  category : String
  priority : String
deriving DecidableEq

/-- `app.models.lastenheft.LastenheftAnalysisResponse`. -/
structure LastenheftAnalysisResponse where
  quality_assessment : QualityScore
  open_questions : List OpenQuestion
  extracted_skills : List ExtractedSkill
deriving DecidableEq

/-- The outcome of one `_call_llm` invocation of `lastenheft_analyzer.py`
(lines 108-131), as seen from inside the `try` block: a transport error from
the client call, a falsy `content`, a `json.loads` failure, or successfully
parsed data (already shaped into the stage's structured type, parametrically
in `α`). -/
inductive LlmCallOutcome (α : Type) where
  | transportError (msg : String)
  | emptyContent
  | invalidJson (msg : String)
  | success (data : α)
deriving DecidableEq

/-- `LastenheftAnalyzer._call_llm` (lines 108-131): maps each failure mode to
the `LastenheftAnalyzerError` message the code raises.  Note none of the
messages mentions which of the three analysis stages issued the call. -/
def call_llm {α : Type} : LlmCallOutcome α → Except String α
  | .transportError msg => .error ("LLM call failed: " ++ msg)
  | .emptyContent => .error "Empty response from LLM"
  | .invalidJson msg => .error ("Failed to parse LLM JSON response: " ++ msg)
  | .success data => .ok data

/-- `LastenheftAnalyzer.analyze` (lines 147-161): three concurrent LLM calls
joined by `asyncio.gather`, which re-raises a sub-call's exception; the
response is built only when all three succeed.  (gather picks the
chronologically first exception; the model propagates the first failing
outcome in argument order, which is indistinguishable when one stage fails.) -/
def analyze (quality : LlmCallOutcome QualityScore)
    (questions : LlmCallOutcome (List OpenQuestion))
    (skills : LlmCallOutcome (List ExtractedSkill)) :
    Except String LastenheftAnalysisResponse :=
  match call_llm quality with
  | .error e => .error e
  | .ok q =>
    match call_llm questions with
    | .error e => .error e
    | .ok qs =>
      match call_llm skills with
      | .error e => .error e
      | .ok sk =>
        .ok { quality_assessment := q, open_questions := qs, extracted_skills := sk }

/-- The error message `call_llm` produces for a failing outcome (dummy `""`
for a success, where it is never used). -/
def llmErrorMsg {α : Type} : LlmCallOutcome α → String
  | .transportError msg => "LLM call failed: " ++ msg
  | .emptyContent => "Empty response from LLM"
  | .invalidJson msg => "Failed to parse LLM JSON response: " ++ msg
  | .success _ => ""

/-- Whether an LLM call outcome is a success. -/
def LlmCallOutcome.succeeded {α : Type} : LlmCallOutcome α → Prop
  | .success _ => True
  | _ => False

/-- One server-sent event of `ChatService.stream_chat` (lines 128-186). -/
inductive ChatEvent where
  | start
  | search_complete (results_count : Nat) (employees : List (String × String × String))
  | token (content : String)
  | error (msg : String)
  | complete
deriving DecidableEq

/-- The name/alias/title summary emitted with `search_complete` (lines 143-150). -/
def employeesSummary (results : List SearchResult) : List (String × String × String) :=
  results.map (fun r => (r.employee_name, r.employee_alias, r.title))

/-- `ChatService.stream_chat` (lines 128-186) as the event sequence it yields,
given the outcome of each stage: the embedding call, the hybrid search, and
the LLM token stream (the content deltas received before the stream either
ends cleanly or raises `streamFailure`).  The single `try` block starting
after the `start` event turns the first exception into a terminal `error`
event; deltas with falsy content are skipped. -/
def stream_chat (embeddingOutcome : Except String Unit)
    (searchOutcome : Except String (List SearchResult))
    (chunks : List String) (streamFailure : Option String) : List ChatEvent :=
  ChatEvent.start ::
    (match embeddingOutcome with
     | .error e => [ChatEvent.error e]
     | .ok _ =>
       match searchOutcome with
       | .error e => [ChatEvent.error e]
       | .ok results =>
         ChatEvent.search_complete results.length (employeesSummary results) ::
           ((chunks.filter (fun c => c != "")).map ChatEvent.token ++
             match streamFailure with
             | some e => [ChatEvent.error e]
             | none => [ChatEvent.complete]))

/-- Whether an event is an `error` event. -/
def isErrorEvent : ChatEvent → Bool
  | .error _ => true
  | _ => false

lemma skill_weight_pos (s : ExtractedSkill) : 0 < skill_weight s := by
  unfold skill_weight; split <;> norm_num

lemma weighted_total_pos (required_skills : List ExtractedSkill)
    (h : required_skills ≠ []) : 0 < (required_skills.map skill_weight).sum := by
  apply List.sum_pos
  · intro a ha
    obtain ⟨s, _, rfl⟩ := List.mem_map.mp ha
    exact skill_weight_pos s
  · simpa using h

lemma weighted_matched_nonneg (required_skills : List ExtractedSkill)
    (eset : List String) :
    0 ≤ (required_skills.map (fun s =>
      if eset.contains (lowerStr s.name) then skill_weight s else 0)).sum := by
  apply List.sum_nonneg
  intro a ha
  obtain ⟨s, _, rfl⟩ := List.mem_map.mp ha
  split
  · exact (skill_weight_pos s).le
  · exact le_refl 0

lemma weighted_matched_le_total (required_skills : List ExtractedSkill)
    (eset : List String) :
    (required_skills.map (fun s =>
      if eset.contains (lowerStr s.name) then skill_weight s else 0)).sum ≤
    (required_skills.map skill_weight).sum := by
  apply List.sum_le_sum
  intro s _
  split
  · exact le_refl _
  · exact (skill_weight_pos s).le

/-- C3: `calculate_skill_match` always lies in `[0,1]`; it returns exactly `0`
when the required list is empty or the case-insensitive union of employee
skills and tools is empty; otherwise it is the weighted-matched sum over the
weighted total, each required skill weighing `2` if mandatory else `1`, and
contributing to the matched sum exactly when its lower-cased name is in the
employee set. -/
lemma calculate_skill_match_eq (required_skills : List ExtractedSkill)
    (employee_skills employee_tools : List String) (h1 : required_skills ≠ [])
    (h2 : employee_set employee_skills employee_tools ≠ []) :
    calculate_skill_match required_skills employee_skills employee_tools =
      (required_skills.map (fun s =>
        if (employee_set employee_skills employee_tools).contains (lowerStr s.name)
        then skill_weight s else 0)).sum /
      (required_skills.map skill_weight).sum := by
  have htot := weighted_total_pos required_skills h1
  simp only [calculate_skill_match]
  rw [if_neg (by simpa using h1), if_neg (by simpa using h2), if_neg htot.ne']

theorem calculate_skill_match_spec (required_skills : List ExtractedSkill)
    (employee_skills employee_tools : List String) :
    (0 ≤ calculate_skill_match required_skills employee_skills employee_tools ∧
      calculate_skill_match required_skills employee_skills employee_tools ≤ 1) ∧
    (required_skills = [] →
      calculate_skill_match required_skills employee_skills employee_tools = 0) ∧
    (employee_set employee_skills employee_tools = [] →
      calculate_skill_match required_skills employee_skills employee_tools = 0) ∧
    (required_skills ≠ [] → employee_set employee_skills employee_tools ≠ [] →
      calculate_skill_match required_skills employee_skills employee_tools =
        (required_skills.map (fun s =>
          if (employee_set employee_skills employee_tools).contains (lowerStr s.name)
          then (if s.mandatory then (2:ℚ) else 1) else 0)).sum /
        (required_skills.map (fun s => if s.mandatory then (2:ℚ) else 1)).sum) := by
  have heq := calculate_skill_match_eq required_skills employee_skills employee_tools
  refine ⟨?_, ?_, ?_, ?_⟩
  · by_cases h1 : required_skills = []
    · subst h1; simp [calculate_skill_match]
    · by_cases h2 : employee_set employee_skills employee_tools = []
      · simp [calculate_skill_match, h2]
      · rw [heq h1 h2]
        have htot := weighted_total_pos required_skills h1
        constructor
        · exact div_nonneg (weighted_matched_nonneg _ _) htot.le
        · rw [div_le_one htot]
          exact weighted_matched_le_total _ _
  · intro h1; subst h1; simp [calculate_skill_match]
  · intro h2; simp [calculate_skill_match, h2]
  · intro h1 h2
    rw [heq h1 h2]
    rfl

/-- C4: `calculate_experience_score` always lies in `[0,1]`; a missing
required level yields exactly `0.7`; otherwise the level maps to its ideal
range (junior `[0,2]`, mid `[2,5]`, senior `[5,10]`, expert `[8,20]`, any
unknown level falling back to the mid range) and the score is
`max(0, 1 - |years - mid| / spread)` with `spread = width/2 + 2`, clamped to
at most `1`. -/
theorem calculate_experience_score_spec (required_level : Option String) (years : ℚ) :
    (0 ≤ calculate_experience_score required_level years ∧
      calculate_experience_score required_level years ≤ 1) ∧
    calculate_experience_score none years = 7/10 ∧
    (∀ lvl, calculate_experience_score (some lvl) years =
      min 1 (max 0 (1 - |years - ((level_ranges lvl).1 + (level_ranges lvl).2) / 2| /
        (((level_ranges lvl).2 - (level_ranges lvl).1) / 2 + 2)))) ∧
    (level_ranges "junior" = (0, 2) ∧ level_ranges "mid" = (2, 5) ∧
      level_ranges "senior" = (5, 10) ∧ level_ranges "expert" = (8, 20)) ∧
    (∀ lvl, lvl ≠ "junior" → lvl ≠ "mid" → lvl ≠ "senior" → lvl ≠ "expert" →
      level_ranges lvl = (2, 5)) := by
  refine ⟨?_, rfl, fun lvl => rfl, ⟨rfl, rfl, rfl, rfl⟩, ?_⟩
  · cases required_level with
    | none => norm_num [calculate_experience_score]
    | some lvl =>
      constructor
      · exact le_min (by norm_num) (le_max_left 0 _)
      · exact min_le_left 1 _
  · intro lvl h1 h2 h3 h4
    simp [level_ranges, h1, h2, h3, h4]

/-- C5: `normalize_search_score` always lies in `[0,1]`; it returns exactly
`0` when `max_score ≤ 0`, otherwise `score / max_score` clamped to `[0,1]`;
and for fixed positive `max_score` it is monotone non-decreasing in `score`. -/
theorem normalize_search_score_spec (score max_score : ℚ) :
    (0 ≤ normalize_search_score score max_score ∧
      normalize_search_score score max_score ≤ 1) ∧
    (max_score ≤ 0 → normalize_search_score score max_score = 0) ∧
    (0 < max_score →
      normalize_search_score score max_score = max 0 (min 1 (score / max_score))) ∧
    (∀ s1 s2 : ℚ, s1 ≤ s2 → 0 < max_score →
      normalize_search_score s1 max_score ≤ normalize_search_score s2 max_score) := by
  refine ⟨?_, ?_, ?_, ?_⟩
  · unfold normalize_search_score
    split_ifs
    · norm_num
    · constructor
      · exact le_max_left 0 _
      · exact max_le (by norm_num) (min_le_left 1 _)
  · intro h; simp [normalize_search_score, h]
  · intro h; rw [normalize_search_score, if_neg (not_le.mpr h)]
  · intro s1 s2 h hpos
    rw [normalize_search_score, if_neg (not_le.mpr hpos),
      normalize_search_score, if_neg (not_le.mpr hpos)]
    gcongr

lemma round4_zero : round4 0 = 0 := by
  norm_num [round4, roundHalfEven]

lemma matchList_eq (skills : List ExtractedSkill) (search_results : List SearchResult)
    (outcome : ExplanationOutcome) (h : search_results ≠ []) :
    (matchCandidates skills search_results outcome).matchList =
      ((List.insertionSort scoredRel (scoredList skills search_results)).take
        MAX_CANDIDATES).map (mkCandidateMatch (generate_explanations outcome)) := by
  unfold matchCandidates
  rw [if_neg (by simpa using h)]

lemma mem_matchList_exists (skills : List ExtractedSkill)
    (search_results : List SearchResult) (outcome : ExplanationOutcome)
    (c : CandidateMatch)
    (hc : c ∈ (matchCandidates skills search_results outcome).matchList) :
    ∃ r ∈ search_results, c = mkCandidateMatch (generate_explanations outcome)
      ((score_candidate r skills (max_search_score search_results)).1,
       (score_candidate r skills (max_search_score search_results)).2, r) := by
  by_cases h : search_results = []
  · subst h; simp [matchCandidates] at hc
  · rw [matchList_eq skills search_results outcome h] at hc
    obtain ⟨x, hx, rfl⟩ := List.mem_map.mp hc
    have hx2 : x ∈ List.insertionSort scoredRel (scoredList skills search_results) :=
      List.mem_of_mem_take hx
    have hx3 : x ∈ scoredList skills search_results :=
      (List.perm_insertionSort scoredRel _).mem_iff.mp hx2
    obtain ⟨r, hr, rfl⟩ := List.mem_map.mp hx3
    exact ⟨r, hr, rfl⟩

lemma matchList_sorted (skills : List ExtractedSkill)
    (search_results : List SearchResult) (outcome : ExplanationOutcome) :
    (matchCandidates skills search_results outcome).matchList.Pairwise
      (fun a b => b.total_score ≤ a.total_score) := by
  by_cases h : search_results = []
  · subst h; simp [matchCandidates]
  · rw [matchList_eq skills search_results outcome h, List.pairwise_map]
    have hs : (List.insertionSort scoredRel (scoredList skills search_results)).Pairwise
        scoredRel := List.sorted_insertionSort scoredRel _
    exact (List.Pairwise.sublist (List.take_sublist _ _) hs).imp (fun hab => hab)

lemma find?_eq_head?_filter {α : Type} (p : α → Bool) (l : List α) :
    l.find? p = (l.filter p).head? := by
  induction l with
  | nil => rfl
  | cons a t ih =>
    by_cases h : p a = true
    · rw [List.find?_cons_of_pos _ h, List.filter_cons_of_pos h, List.head?_cons]
    · rw [List.find?_cons_of_neg _ h, List.filter_cons_of_neg h, ih]

lemma filter_orderedInsert_key (q : ℚ) (a : Scored) (l : List Scored) :
    (List.orderedInsert scoredRel a l).filter (fun x => decide (x.1 = q)) =
      if a.1 = q then a :: l.filter (fun x => decide (x.1 = q))
      else l.filter (fun x => decide (x.1 = q)) := by
  induction l with
  | nil =>
    simp only [List.orderedInsert, List.filter]
    by_cases h : a.1 = q <;> simp [h]
  | cons b t ih =>
    by_cases hab : scoredRel a b
    · rw [List.orderedInsert, if_pos hab]
      by_cases ha : a.1 = q <;> simp [List.filter_cons, ha]
    · rw [List.orderedInsert, if_neg hab]
      have hblt : a.1 < b.1 := lt_of_not_le hab
      by_cases ha : a.1 = q
      · have hb : ¬(b.1 = q) := by rw [← ha]; exact (ne_of_gt hblt)
        simp [List.filter_cons, ha, hb, ih]
      · by_cases hb : b.1 = q <;> simp [List.filter_cons, ha, hb, ih]

lemma filter_insertionSort_key (q : ℚ) (l : List Scored) :
    (List.insertionSort scoredRel l).filter (fun x => decide (x.1 = q)) =
      l.filter (fun x => decide (x.1 = q)) := by
  induction l with
  | nil => rfl
  | cons a t ih =>
    simp only [List.insertionSort]
    rw [filter_orderedInsert_key]
    by_cases ha : a.1 = q <;> simp [List.filter_cons, ha, ih]

/-- The candidate list in original search-result order (scored but neither
sorted nor truncated), used to state stability of the ranking. -/
def candidatesInSearchOrder (skills : List ExtractedSkill)
    (search_results : List SearchResult) (outcome : ExplanationOutcome) :
    List CandidateMatch :=
  (scoredList skills search_results).map (mkCandidateMatch (generate_explanations outcome))

lemma matchList_stable (skills : List ExtractedSkill)
    (search_results : List SearchResult) (outcome : ExplanationOutcome) (q : ℚ) :
    ((matchCandidates skills search_results outcome).matchList.filter
      (fun c => decide (c.total_score = q))).Sublist
    ((candidatesInSearchOrder skills search_results outcome).filter
      (fun c => decide (c.total_score = q))) := by
  by_cases h : search_results = []
  · subst h; simp [matchCandidates, candidatesInSearchOrder, scoredList]
  · rw [matchList_eq skills search_results outcome h, candidatesInSearchOrder,
      List.filter_map, List.filter_map]
    apply List.Sublist.map
    have hcomp : ((fun c : CandidateMatch => decide (c.total_score = q)) ∘
        (mkCandidateMatch (generate_explanations outcome))) =
        fun x : Scored => decide (x.1 = q) := rfl
    rw [hcomp, ← filter_insertionSort_key q (scoredList skills search_results)]
    exact List.Sublist.filter _ (List.take_sublist _ _)

lemma foldl_max_zero (t : List ℚ) : ∀ acc : ℚ, acc = 0 → (∀ x ∈ t, x = 0) →
    t.foldl max acc = 0 := by
  induction t with
  | nil => intro acc ha _; simpa using ha
  | cons b u ih =>
    intro acc ha hx
    have hb : b = 0 := hx b (by simp)
    simp only [List.foldl_cons]
    exact ih (max acc b) (by rw [ha, hb]; simp) (fun x hxu => hx x (by simp [hxu]))

lemma getD_max?_zero (l : List ℚ) (h : ∀ x ∈ l, x = 0) : (l.max?).getD 0 = 0 := by
  cases l with
  | nil => rfl
  | cons a t =>
    show (some (t.foldl max a)).getD 0 = 0
    rw [Option.getD_some]
    exact foldl_max_zero t a (h a (by simp)) (fun x hx => h x (by simp [hx]))

lemma max_search_score_all_zero (search_results : List SearchResult)
    (h : ∀ r ∈ search_results, r.score = 0) : max_search_score search_results = 1 := by
  have hm : ((search_results.map (fun r => r.score)).max?).getD 0 = 0 := by
    apply getD_max?_zero
    intro x hx
    obtain ⟨r, hr, rfl⟩ := List.mem_map.mp hx
    exact h r hr
  simp [max_search_score, hm]

/-- C2: for every non-empty search result set, the `match()` output list is
sorted by `total_score` descending; the sort is stable (for each score value,
the output candidates with that score form a subsequence — hence keep the
relative order — of the candidate list in original search-result order); the
output has length at most 10; and `total_candidates_searched` equals the
number of search results before truncation. -/
theorem matchCandidates_ranking (skills : List ExtractedSkill)
    (search_results : List SearchResult) (outcome : ExplanationOutcome)
    (hne : search_results ≠ []) :
    (matchCandidates skills search_results outcome).matchList.Pairwise
      (fun a b => b.total_score ≤ a.total_score) ∧
    (matchCandidates skills search_results outcome).matchList.length ≤ 10 ∧
    (matchCandidates skills search_results outcome).total_candidates_searched =
      search_results.length ∧
    (∀ q : ℚ,
      ((matchCandidates skills search_results outcome).matchList.filter
        (fun c => decide (c.total_score = q))).Sublist
      ((candidatesInSearchOrder skills search_results outcome).filter
        (fun c => decide (c.total_score = q)))) := by
  refine ⟨matchList_sorted _ _ _, ?_, ?_, fun q => matchList_stable _ _ _ q⟩
  · rw [matchList_eq _ _ _ hne, List.length_map]
    have := List.length_take MAX_CANDIDATES
      (List.insertionSort scoredRel (scoredList skills search_results))
    rw [this]
    exact min_le_left _ _
  · unfold matchCandidates
    rw [if_neg (by simpa using hne)]

/-- A fixed search result used to instantiate theorems with hypotheses at a
concrete input. -/
def wResult : SearchResult :=
  { employee_name := "E", employee_alias := "e", title := "T", location := "L",
    skills := [], tools := [], years_of_experience := 0, score := 1 }

/-- Witness for C2 at a concrete one-result input. -/
theorem matchCandidates_ranking_witness :
    (matchCandidates [] [wResult] ExplanationOutcome.failure).matchList.length ≤ 10 ∧
    (matchCandidates [] [wResult] ExplanationOutcome.failure).total_candidates_searched
      = 1 := by
  have h := matchCandidates_ranking [] [wResult] ExplanationOutcome.failure
    (List.cons_ne_nil _ _)
  exact ⟨h.2.1, h.2.2.1⟩

/-- C6: the required level feeding the experience sub-score is chosen by the
precedence rule "first mandatory skill carrying a level, else first skill
carrying a level, else None", ties broken by input list order; and every
candidate's reported experience component is the (rounded) experience score
at that level. -/
theorem primary_level_precedence (required_skills : List ExtractedSkill)
    (search_results : List SearchResult) (outcome : ExplanationOutcome) :
    primary_level required_skills = spec_primary_level required_skills ∧
    (∀ c ∈ (matchCandidates required_skills search_results outcome).matchList,
      ∃ r ∈ search_results, c.breakdown.experience =
        round4 (calculate_experience_score (primary_level required_skills)
          r.years_of_experience)) := by
  constructor
  · unfold primary_level spec_primary_level
    rw [find?_eq_head?_filter, find?_eq_head?_filter]
  · intro c hc
    obtain ⟨r, hr, rfl⟩ := mem_matchList_exists _ _ _ _ hc
    exact ⟨r, hr, rfl⟩

/-- C7: if the explanation LLM call fails, `match()` still returns the fully
ranked candidate list — identical, explanation apart, to the list produced
under any other explanation outcome — with the empty string as every
candidate's explanation; and the explanation lookup defaults to the empty
string for any alias the LLM omitted. -/
theorem matchCandidates_explanation_degradation (skills : List ExtractedSkill)
    (search_results : List SearchResult) :
    (∀ c ∈ (matchCandidates skills search_results
        ExplanationOutcome.failure).matchList, c.explanation = "") ∧
    (∀ outcome : ExplanationOutcome,
      (matchCandidates skills search_results outcome).matchList.map dropExplanation =
        (matchCandidates skills search_results ExplanationOutcome.failure).matchList.map
          dropExplanation ∧
      (matchCandidates skills search_results outcome).total_candidates_searched =
        (matchCandidates skills search_results
          ExplanationOutcome.failure).total_candidates_searched ∧
      (matchCandidates skills search_results outcome).query_skills =
        (matchCandidates skills search_results ExplanationOutcome.failure).query_skills) ∧
    (∀ (items : List (String × String)) (a : String),
      a ∉ items.map Prod.fst → explanationsGet items a = "") := by
  refine ⟨?_, ?_, ?_⟩
  · intro c hc
    obtain ⟨r, _, rfl⟩ := mem_matchList_exists _ _ _ _ hc
    rfl
  · intro outcome
    by_cases h : search_results = []
    · subst h; exact ⟨rfl, rfl, rfl⟩
    · refine ⟨?_, by simp [matchCandidates, h], by simp [matchCandidates, h]⟩
      rw [matchList_eq _ _ _ h, matchList_eq _ _ _ h, List.map_map, List.map_map]
      exact List.map_congr_left (fun x _ => rfl)
  · intro items a ha
    have hf : items.reverse.find? (fun p => p.1 == a) = none := by
      apply List.find?_eq_none.mpr
      intro x hx
      rw [List.mem_reverse] at hx
      simp only [beq_iff_eq]
      intro hxa
      exact ha (hxa ▸ List.mem_map_of_mem Prod.fst hx)
    unfold explanationsGet
    rw [hf]

/-- C10: if every raw search score in a batch is `0` (or missing, read as
`0`), the falsy batch maximum is replaced by `1.0`, no division by zero
occurs, and every candidate's semantic-similarity component is exactly `0`;
if the batch maximum is negative, `normalize_search_score` returns `0` for
every candidate, so the component is again `0`. -/
theorem matchCandidates_zero_score_guard (skills : List ExtractedSkill)
    (search_results : List SearchResult) (outcome : ExplanationOutcome) :
    ((∀ r ∈ search_results, r.score = 0) →
      max_search_score search_results = 1 ∧
      ∀ c ∈ (matchCandidates skills search_results outcome).matchList,
        c.breakdown.semantic_similarity = 0) ∧
    (((search_results.map (fun r => r.score)).max?).getD 0 < 0 →
      (∀ r ∈ search_results,
        normalize_search_score r.score (max_search_score search_results) = 0) ∧
      ∀ c ∈ (matchCandidates skills search_results outcome).matchList,
        c.breakdown.semantic_similarity = 0) := by
  constructor
  · intro h
    have hms := max_search_score_all_zero search_results h
    refine ⟨hms, ?_⟩
    intro c hc
    obtain ⟨r, hr, rfl⟩ := mem_matchList_exists _ _ _ _ hc
    show round4 (normalize_search_score r.score (max_search_score search_results)) = 0
    rw [hms, h r hr,
      show normalize_search_score 0 1 = 0 from by
        norm_num [normalize_search_score, min_def, max_def]]
    exact round4_zero
  · intro h
    have hm0 : max_search_score search_results =
        ((search_results.map (fun r => r.score)).max?).getD 0 := by
      unfold max_search_score
      rw [if_neg (ne_of_lt h)]
    have hle : max_search_score search_results ≤ 0 := by rw [hm0]; exact h.le
    have hnorm : ∀ s : ℚ, normalize_search_score s (max_search_score search_results) = 0 := by
      intro s; simp [normalize_search_score, hle]
    refine ⟨fun r _ => hnorm r.score, ?_⟩
    intro c hc
    obtain ⟨r, hr, rfl⟩ := mem_matchList_exists _ _ _ _ hc
    show round4 (normalize_search_score r.score (max_search_score search_results)) = 0
    rw [hnorm]
    exact round4_zero

/-- C1 (amended): every candidate's `total_score` is the weighted sum of the
four *unrounded* component scores, rounded to 4 decimals afterwards, with the
fixed weights 0.40/0.25/0.20/0.15 (summing to 1); the `ScoreBreakdown`
reports each component separately rounded to 4 decimals (so recomputing the
total from the rounded breakdown can differ in the last decimal place). -/
theorem matchCandidates_total_score_spec (skills : List ExtractedSkill)
    (search_results : List SearchResult) (outcome : ExplanationOutcome) :
    (∀ c ∈ (matchCandidates skills search_results outcome).matchList,
      ∃ r ∈ search_results,
        c.total_score = round4 (
          2/5 * calculate_skill_match skills r.skills r.tools +
          1/4 * calculate_experience_score (primary_level skills) r.years_of_experience +
          1/5 * normalize_search_score r.score (max_search_score search_results) +
          3/20 * DEFAULT_AVAILABILITY) ∧
        c.breakdown = ⟨
          round4 (calculate_skill_match skills r.skills r.tools),
          round4 (calculate_experience_score (primary_level skills) r.years_of_experience),
          round4 (normalize_search_score r.score (max_search_score search_results)),
          round4 DEFAULT_AVAILABILITY⟩) ∧
    (WEIGHT_SKILL_MATCH = 2/5 ∧ WEIGHT_EXPERIENCE = 1/4 ∧ WEIGHT_SEMANTIC = 1/5 ∧
      WEIGHT_AVAILABILITY = 3/20 ∧ DEFAULT_AVAILABILITY = 4/5 ∧
      WEIGHT_SKILL_MATCH + WEIGHT_EXPERIENCE + WEIGHT_SEMANTIC + WEIGHT_AVAILABILITY
        = 1) := by
  constructor
  · intro c hc
    obtain ⟨r, hr, rfl⟩ := mem_matchList_exists _ _ _ _ hc
    exact ⟨r, hr, rfl, rfl⟩
  · refine ⟨rfl, rfl, rfl, rfl, rfl, by
      norm_num [WEIGHT_SKILL_MATCH, WEIGHT_EXPERIENCE, WEIGHT_SEMANTIC,
        WEIGHT_AVAILABILITY]⟩

/-- Required skills of the C1 counterexample: one optional `mid`-level skill
the employee has, two optional skills the employee lacks, giving an unrounded
skill-match score of `1/3`. -/
def cexSkills : List ExtractedSkill :=
  [{ name := "python", category := "programming", mandatory := false, level := some "mid" },
   { name := "linux", category := "other", mandatory := false, level := none },
   { name := "git", category := "other", mandatory := false, level := none }]

/-- Search result of the C1 counterexample: `6.99965` years of experience
makes the unrounded experience score exactly `0.0001`. -/
def cexResult : SearchResult :=
  { employee_name := "E", employee_alias := "e1", title := "Dev", location := "Berlin",
    skills := ["Python"], tools := [], years_of_experience := 139993/20000, score := 2 }

lemma cex_max : max_search_score [cexResult] = 2 := by
  show (if ((2:ℚ)) = 0 then 1 else 2) = 2
  norm_num

lemma cex_skill : calculate_skill_match cexSkills ["Python"] [] = 1/3 := by
  rw [calculate_skill_match_eq cexSkills ["Python"] [] (by decide) (by decide)]
  have e1 : (employee_set ["Python"] []).contains (lowerStr "python") = true := by decide
  have e2 : (employee_set ["Python"] []).contains (lowerStr "linux") = false := by decide
  have e3 : (employee_set ["Python"] []).contains (lowerStr "git") = false := by decide
  simp only [cexSkills, List.map_cons, List.map_nil, List.sum_cons, List.sum_nil,
    e1, e2, e3, skill_weight, if_true, if_false, Bool.false_eq_true]
  norm_num

lemma cex_primary : primary_level cexSkills = some "mid" := by decide

lemma cex_exp : calculate_experience_score (some "mid") (139993/20000 : ℚ) = 1/10000 := by
  show min 1 (max 0 (1 - |(139993:ℚ)/20000 - (2 + 5)/2| / ((5 - 2)/2 + 2))) = 1/10000
  rw [show |(139993:ℚ)/20000 - (2 + 5)/2| = 139993/20000 - 7/2 from by
    rw [abs_of_nonneg (by norm_num)]; norm_num]
  norm_num [min_def, max_def]

lemma cex_sem : normalize_search_score 2 2 = 1 := by
  norm_num [normalize_search_score, min_def, max_def]

lemma cex_score : score_candidate cexResult cexSkills (max_search_score [cexResult]) =
    (2267/5000, ⟨3333/10000, 1/10000, 1, 4/5⟩) := by
  rw [cex_max]
  show (round4 (WEIGHT_SKILL_MATCH * calculate_skill_match cexSkills ["Python"] [] +
      WEIGHT_EXPERIENCE * calculate_experience_score (primary_level cexSkills)
        (139993/20000) +
      WEIGHT_SEMANTIC * normalize_search_score 2 2 +
      WEIGHT_AVAILABILITY * DEFAULT_AVAILABILITY),
    ({ skill_match := round4 (calculate_skill_match cexSkills ["Python"] [])
       experience := round4 (calculate_experience_score (primary_level cexSkills)
         (139993/20000))
       semantic_similarity := round4 (normalize_search_score 2 2)
       availability := round4 DEFAULT_AVAILABILITY } : ScoreBreakdown)) = _
  rw [cex_skill, cex_primary, cex_exp, cex_sem]
  simp only [Prod.mk.injEq, ScoreBreakdown.mk.injEq, WEIGHT_SKILL_MATCH,
    WEIGHT_EXPERIENCE, WEIGHT_SEMANTIC, WEIGHT_AVAILABILITY, DEFAULT_AVAILABILITY]
  refine ⟨?_, ?_, ?_, ?_, ?_⟩
  · norm_num [round4, roundHalfEven, Int.floor_eq_iff]
  · norm_num [round4, roundHalfEven, Int.floor_eq_iff]
  · norm_num [round4, roundHalfEven, Int.floor_eq_iff]
  · norm_num [round4, roundHalfEven, Int.floor_eq_iff]
  · norm_num [round4, roundHalfEven, Int.floor_eq_iff]

/-- C1 fails as stated: at this concrete `match()` run, the returned
`total_score` (`0.4534`) is not `round4` of the weighted sum of the four
*rounded* components reported in the `ScoreBreakdown` (which gives
`0.4533`): the code rounds the total of the unrounded components instead. -/
theorem matchCandidates_total_score_counterexample :
    ∃ c ∈ (matchCandidates cexSkills [cexResult] ExplanationOutcome.failure).matchList,
      c.total_score ≠ round4 (2/5 * c.breakdown.skill_match +
        1/4 * c.breakdown.experience + 1/5 * c.breakdown.semantic_similarity +
        3/20 * c.breakdown.availability) := by
  have hm : (matchCandidates cexSkills [cexResult] ExplanationOutcome.failure).matchList =
      [mkCandidateMatch []
        ((score_candidate cexResult cexSkills (max_search_score [cexResult])).1,
         (score_candidate cexResult cexSkills (max_search_score [cexResult])).2,
         cexResult)] := by
    rw [matchList_eq _ _ _ (List.cons_ne_nil _ _)]
    rfl
  refine ⟨mkCandidateMatch []
      ((score_candidate cexResult cexSkills (max_search_score [cexResult])).1,
       (score_candidate cexResult cexSkills (max_search_score [cexResult])).2,
       cexResult), ?_, ?_⟩
  · rw [hm]; exact List.mem_singleton_self _
  · rw [show (mkCandidateMatch []
        ((score_candidate cexResult cexSkills (max_search_score [cexResult])).1,
         (score_candidate cexResult cexSkills (max_search_score [cexResult])).2,
         cexResult)).total_score =
        (score_candidate cexResult cexSkills (max_search_score [cexResult])).1 from rfl,
      show (mkCandidateMatch []
        ((score_candidate cexResult cexSkills (max_search_score [cexResult])).1,
         (score_candidate cexResult cexSkills (max_search_score [cexResult])).2,
         cexResult)).breakdown =
        (score_candidate cexResult cexSkills (max_search_score [cexResult])).2 from rfl,
      cex_score]
    show (2267/5000 : ℚ) ≠ round4 (2/5 * (3333/10000) + 1/4 * (1/10000) +
      1/5 * 1 + 3/20 * (4/5))
    rw [show round4 (2/5 * (3333/10000) + 1/4 * (1/10000) + (1:ℚ)/5 * 1 +
        3/20 * (4/5)) = 4533/10000 from by
      norm_num [round4, roundHalfEven, Int.floor_eq_iff]]
    norm_num

/-- A concrete quality assessment used in counterexample runs. -/
def sampleQuality : QualityScore :=
  { completeness := 80, clarity := 70, specificity := 60, feasibility := 50,
    overall := 65, summary := "ok" }

/-- C8 fails as stated: two `analyze()` runs in which *different* stages fail
with the same underlying condition (empty LLM content) raise the *identical*
domain error `Empty response from LLM`, so the error does not identify which
of the three stages failed; it carries only the underlying cause. -/
theorem analyze_stage_identity_counterexample :
    analyze LlmCallOutcome.emptyContent (LlmCallOutcome.success [])
        (LlmCallOutcome.success []) = Except.error "Empty response from LLM" ∧
    analyze (LlmCallOutcome.success sampleQuality) (LlmCallOutcome.success [])
        LlmCallOutcome.emptyContent = Except.error "Empty response from LLM" :=
  ⟨rfl, rfl⟩

/-- C8 (amended): if any of the three concurrent `analyze()` sub-calls fails
(non-JSON response, empty content, or transport error), the whole `analyze()`
call fails with the domain error carrying the underlying cause (but not which
stage failed), and no partial `LastenheftAnalysisResponse` is ever returned:
a successful response implies all three stages succeeded with exactly the
returned payloads. -/
theorem analyze_all_or_nothing (quality : LlmCallOutcome QualityScore)
    (questions : LlmCallOutcome (List OpenQuestion))
    (skills : LlmCallOutcome (List ExtractedSkill)) :
    (∀ resp, analyze quality questions skills = .ok resp →
      quality = .success resp.quality_assessment ∧
      questions = .success resp.open_questions ∧
      skills = .success resp.extracted_skills) ∧
    (¬ quality.succeeded →
      analyze quality questions skills = .error (llmErrorMsg quality)) ∧
    (quality.succeeded → ¬ questions.succeeded →
      analyze quality questions skills = .error (llmErrorMsg questions)) ∧
    (quality.succeeded → questions.succeeded → ¬ skills.succeeded →
      analyze quality questions skills = .error (llmErrorMsg skills)) ∧
    ((∃ resp, analyze quality questions skills = .ok resp) ↔
      quality.succeeded ∧ questions.succeeded ∧ skills.succeeded) := by
  cases quality <;> cases questions <;> cases skills <;>
    simp [analyze, call_llm, llmErrorMsg, LlmCallOutcome.succeeded]

lemma token_filter_no_error (chunks : List String) :
    ((chunks.filter (fun c => c != "")).map ChatEvent.token).filter isErrorEvent = [] := by
  apply List.filter_eq_nil_iff.mpr
  intro ev hev
  obtain ⟨c, _, rfl⟩ := List.mem_map.mp hev
  simp [isErrorEvent]

lemma complete_not_mem_tokens (chunks : List String) :
    ChatEvent.complete ∉ (chunks.filter (fun c => c != "")).map ChatEvent.token := by
  intro h
  obtain ⟨c, _, hc⟩ := List.mem_map.mp h
  exact ChatEvent.noConfusion hc

/-- C9: in the event sequence of `stream_chat`, a `complete` event occurs
exactly on the fully successful path (so never after an `error`); a failing
embedding call yields exactly the two events `start` then `error`; and a
failure at any stage (embedding, search, or LLM token streaming) makes the
last event the single `error` event of the sequence, with no `complete`. -/
theorem stream_chat_events_spec (embeddingOutcome : Except String Unit)
    (searchOutcome : Except String (List SearchResult))
    (chunks : List String) (streamFailure : Option String) :
    (∀ e, embeddingOutcome = .error e →
      stream_chat embeddingOutcome searchOutcome chunks streamFailure =
        [ChatEvent.start, ChatEvent.error e]) ∧
    (ChatEvent.complete ∈ stream_chat embeddingOutcome searchOutcome chunks streamFailure ↔
      (∃ u, embeddingOutcome = .ok u) ∧ (∃ rs, searchOutcome = .ok rs) ∧
        streamFailure = none) ∧
    ((∃ e, embeddingOutcome = .error e) ∨ (∃ e, searchOutcome = .error e) ∨
        (∃ e, streamFailure = some e) →
      ∃ m, (stream_chat embeddingOutcome searchOutcome chunks streamFailure).getLast? =
          some (ChatEvent.error m) ∧
        ((stream_chat embeddingOutcome searchOutcome chunks streamFailure).filter
          isErrorEvent).length = 1 ∧
        ChatEvent.complete ∉ stream_chat embeddingOutcome searchOutcome chunks
          streamFailure) := by
  refine ⟨?_, ?_, ?_⟩
  · intro e he
    subst he
    rfl
  · cases embeddingOutcome with
    | error e => simp [stream_chat]
    | ok u =>
      cases searchOutcome with
      | error e => simp [stream_chat]
      | ok rs =>
        cases streamFailure with
        | some e => simp [stream_chat, complete_not_mem_tokens chunks]
        | none => simp [stream_chat]
  · intro h
    cases embeddingOutcome with
    | error e => exact ⟨e, rfl, rfl, by simp [stream_chat]⟩
    | ok u =>
      cases searchOutcome with
      | error e => exact ⟨e, rfl, rfl, by simp [stream_chat]⟩
      | ok rs =>
        cases streamFailure with
        | none =>
          rcases h with ⟨e, he⟩ | ⟨e, he⟩ | ⟨e, he⟩ <;> exact absurd he (by simp)
        | some e =>
          refine ⟨e, ?_, ?_, ?_⟩
          · show (ChatEvent.start :: ChatEvent.search_complete rs.length
                (employeesSummary rs) ::
                ((chunks.filter (fun c => c != "")).map ChatEvent.token ++
                  [ChatEvent.error e])).getLast? = some (ChatEvent.error e)
            rw [show ChatEvent.start :: ChatEvent.search_complete rs.length
                (employeesSummary rs) ::
                ((chunks.filter (fun c => c != "")).map ChatEvent.token ++
                  [ChatEvent.error e]) =
                (ChatEvent.start :: ChatEvent.search_complete rs.length
                  (employeesSummary rs) ::
                  (chunks.filter (fun c => c != "")).map ChatEvent.token) ++
                  [ChatEvent.error e] from by simp]
            exact List.getLast?_concat _
          · show ((ChatEvent.start :: ChatEvent.search_complete rs.length
                (employeesSummary rs) ::
                ((chunks.filter (fun c => c != "")).map ChatEvent.token ++
                  [ChatEvent.error e])).filter isErrorEvent).length = 1
            rw [List.filter_cons_of_neg (by simp [isErrorEvent]),
              List.filter_cons_of_neg (by simp [isErrorEvent]),
              List.filter_append, token_filter_no_error chunks]
            rfl
          · simp [stream_chat, complete_not_mem_tokens chunks]
